import Mathlib

/-!
Verification development for the shader-program pipeline of
src/Learning OpenGL/Learning OpenGL/src/Application.cpp.

The C++ functions GLClearErrors, GLLogCall, ParseShader, CompileShader and
CreateShader, together with the uniform-setup fragment of main, are embedded
as executable Lean definitions.  The OpenGL driver is modelled as an oracle
(structure Driver) supplying the values the driver returns (fresh handles,
compile status, info-log data, uniform locations), and each driver call is
recorded in an execution trace so that ordering and resource-lifetime
properties can be stated.  The driver error queue is modelled as a list of
error codes, popped by glGetError; the code 0 is GL_NO_ERROR.
-/

set_option autoImplicit false
set_option linter.unusedVariables false

/-- One diagnostic line printed by GLLogCall: the numeric error code together
with the textual form of the failing call and its source location. -/
structure GLErrorReport where
  code : Nat
  callText : String
  file : String
  line : Nat
deriving DecidableEq

/-- One item written to standard output.  `addrOfMessagePtr` models the
statement `std::cout << &message` in CompileShader, which streams the address
of the local pointer variable rather than the characters of the log. -/
inductive OutItem where
  | str (s : String)
  | addrOfMessagePtr
  | glError (r : GLErrorReport)
deriving DecidableEq

/-- Embeds `static void GLClearErrors()`:
`while (glGetError() != GL_NO_ERROR);`.
The argument is the driver error queue; glGetError pops the head (returning 0
when the queue is empty); the loop stops as soon as glGetError returns 0.
The result is the queue left behind. -/
def GLClearErrors : List Nat → List Nat
  | [] => []
  | e :: rest => if e = 0 then rest else GLClearErrors rest

/-- Embeds `static bool GLLogCall(const char* function, const char* file, int line)`:
`while (GLenum error = glGetError()) { std::cout << ...; return false; } return true;`.
Because the loop body ends in an unconditional `return false`, at most one
iteration runs: one error code is popped and reported, then the function
returns.  Result: (reports printed, return value, queue left behind). -/
def GLLogCall (callText file : String) (line : Nat) (q : List Nat) :
    List GLErrorReport × Bool × List Nat :=
  match q with
  | [] => ([], true, [])
  | e :: rest =>
    if e = 0 then ([], true, rest)
    else ([⟨e, callText, file, line⟩], false, rest)

/-- Bool test whether `pat` is an initial segment of the second list. -/
def startsWith : List Char → List Char → Bool
  | [], _ => true
  | _ :: _, [] => false
  | a :: pa, b :: pb => (a == b) && startsWith pa pb

/-- Embeds `line.find(tok) != std::string::npos`: does `needle` occur as a
contiguous substring of the second list? -/
def hasSub (needle : List Char) : List Char → Bool
  | [] => startsWith needle []
  | c :: rest => startsWith needle (c :: rest) || hasSub needle rest

/-- The section-marker token `"#shader"` searched for by ParseShader. -/
def shaderTok : List Char := "#shader".data

/-- The stage name `"vertex"` searched for by ParseShader. -/
def vertexTok : List Char := "vertex".data

/-- The stage name `"fragment"` searched for by ParseShader. -/
def fragmentTok : List Char := "fragment".data

/-- Embeds `enum class ShaderType { NONE = -1, VERTEX = 0, FRAGMENT = 1 }`. -/
inductive ShaderType where
  | NONE
  | VERTEX
  | FRAGMENT
deriving DecidableEq

/-- The numeric value of each enumerator, as used by the cast `(int)type`. -/
def ShaderType.toInt : ShaderType → Int
  | .NONE => -1
  | .VERTEX => 0
  | .FRAGMENT => 1

/-- The two-element array `std::stringstream ss[2]` of ParseShader, with each
stream materialized as the list of characters written to it so far. -/
structure Buffers where
  ss0 : List Char
  ss1 : List Char
deriving DecidableEq

/-- Result of running the ParseShader loop: either the final buffers, or the
index of an out-of-bounds access to the two-element array `ss`. -/
inductive SplitResult where
  | ok (b : Buffers)
  | oob (i : Int)
deriving DecidableEq

/-- Embeds `ss[i] << line << '\n'`.  The array `ss` has exactly two elements,
so any index outside {0, 1} is an out-of-bounds access. -/
def writeBuf (i : Int) (line : List Char) (b : Buffers) : SplitResult :=
  if i = 0 then .ok { b with ss0 := b.ss0 ++ line ++ ['\n'] }
  else if i = 1 then .ok { b with ss1 := b.ss1 ++ line ++ ['\n'] }
  else .oob i

/-- Embeds the `while (getline(stream, line))` loop of ParseShader: for each
line, if it contains `"#shader"` then a contained `"vertex"` selects VERTEX,
otherwise a contained `"fragment"` selects FRAGMENT, otherwise the selector is
left unchanged; any other line is appended (plus a newline) to
`ss[(int)type]`. -/
def parseLoop : List (List Char) → ShaderType → Buffers → SplitResult
  | [], _, b => .ok b
  | line :: rest, t, b =>
    if hasSub shaderTok line then
      if hasSub vertexTok line then parseLoop rest .VERTEX b
      else if hasSub fragmentTok line then parseLoop rest .FRAGMENT b
      else parseLoop rest t b
    else
      match writeBuf t.toInt line b with
      | .ok b2 => parseLoop rest t b2
      | .oob i => .oob i

/-- Embeds `struct ShaderProgramSource { std::string VertexSource; std::string FragmentSource; }`. -/
structure ShaderProgramSource where
  VertexSource : List Char
  FragmentSource : List Char
deriving DecidableEq

/-- Result of ParseShader: the returned bundle together with everything the
function printed (the C++ function contains no output statement, so the list
is always empty), or the index of an out-of-bounds buffer access. -/
inductive ParseResult where
  | ok (src : ShaderProgramSource) (out : List OutItem)
  | oob (i : Int)
deriving DecidableEq

/-- Embeds `static ShaderProgramSource ParseShader(const std::string& filepath)`.
`readFile` is the filesystem: `none` models an ifstream whose open failed, in
which case every getline fails and the loop body never runs.  The function
performs no check on the stream state and prints nothing. -/
def ParseShader (readFile : String → Option (List (List Char))) (filepath : String) :
    ParseResult :=
  let fileLines := (readFile filepath).getD []
  match parseLoop fileLines ShaderType.NONE ⟨[], []⟩ with
  | SplitResult.ok b => ParseResult.ok ⟨b.ss0, b.ss1⟩ []
  | SplitResult.oob i => ParseResult.oob i

/-- The buffer contents produced by writing each given line followed by a
newline character, in order. -/
def joinNL : List (List Char) → List Char
  | [] => []
  | l :: ls => l ++ '\n' :: joinNL ls

/-- The value of the OpenGL constant GL_VERTEX_SHADER. -/
def GL_VERTEX_SHADER : Nat := 35633

/-- The value of the OpenGL constant GL_FRAGMENT_SHADER. -/
def GL_FRAGMENT_SHADER : Nat := 35632

/-- The value of the OpenGL constant GL_TRUE as a GLint. -/
def GL_TRUE : Int := 1

/-- The value of the OpenGL constant GL_FALSE as a GLint. -/
def GL_FALSE : Int := 0

/-- The value of __FILE__ inside Application.cpp. -/
def applicationFile : String := "src/Application.cpp"

/-- One recorded driver call.  Query parameters and driver-returned values are
stored with the action so that ordering and lifetime properties can be read
off the trace. -/
inductive GLAction where
  | createShader (shaderType id : Nat)
  | shaderSource (id : Nat)
  | compileShader (id : Nat)
  | getShaderCompileStatus (id : Nat) (result : Int)
  | getShaderInfoLogLength (id : Nat) (length : Nat)
  | getShaderInfoLog (id : Nat) (bufSize : Nat)
  | deleteShader (id : Nat)
  | createProgram (id : Nat)
  | attachShader (program shader : Nat)
  | linkProgram (program : Nat)
  | validateProgram (program : Nat)
  | useProgram (program : Nat)
  | getUniformLocation (program : Nat) (name : String) (result : Int)
  | uniform4f (location : Int)
deriving DecidableEq

/-- The oracle for values returned by the OpenGL driver: the handle issued by
glCreateShader for each stage type, the handle issued by glCreateProgram, the
GL_COMPILE_STATUS and GL_INFO_LOG_LENGTH answers of glGetShaderiv per shader
id, the text written by glGetShaderInfoLog, and glGetUniformLocation. -/
structure Driver where
  createShaderId : Nat → Nat
  createProgramId : Nat
  compileStatus : Nat → Bool
  infoLogLength : Nat → Nat
  infoLog : Nat → Nat → String
  uniformLocation : Nat → String → Int

/-- The observable state threaded through the embedded GL code: the driver
error queue, the trace of driver calls made so far, everything printed to
standard output, and whether an ASSERT has fired (__debugbreak reached). -/
structure GLState where
  queue : List Nat
  trace : List GLAction
  out : List OutItem
  trapped : Bool

/-- Append one driver call to the trace. -/
def emit (a : GLAction) (s : GLState) : GLState :=
  { s with trace := s.trace ++ [a] }

/-- Append one item to standard output. -/
def emitOut (o : OutItem) (s : GLState) : GLState :=
  { s with out := s.out ++ [o] }

/-- GLClearErrors acting on the threaded state. -/
def GLClearErrorsS (s : GLState) : GLState :=
  { s with queue := GLClearErrors s.queue }

/-- GLLogCall acting on the threaded state: the popped report (if any) is
printed, and the boolean return value is paired with the new state. -/
def GLLogCallS (callText : String) (line : Nat) (s : GLState) : Bool × GLState :=
  let r := GLLogCall callText applicationFile line s.queue
  (r.2.1, { s with queue := r.2.2, out := s.out ++ r.1.map OutItem.glError })

/-- Embeds the macro `GLCall(x)`: GLClearErrors(); x; ASSERT(GLLogCall(#x,
__FILE__, __LINE__)).  A false return from GLLogCall makes the ASSERT reach
__debugbreak, recorded by setting `trapped`. -/
def GLCallS (callText : String) (line : Nat) (call : GLState → GLState) (s : GLState) :
    GLState :=
  let s1 := GLClearErrorsS s
  let s2 := call s1
  let r := GLLogCallS callText line s2
  if r.1 then r.2 else { r.2 with trapped := true }

/-- Embeds `static unsigned int CompileShader(unsigned int type, const std::string& source)`.
The driver calls inside it are not wrapped in GLCall in the source, so the
error queue is untouched.  On GL_FALSE compile status it queries the log
length, allocates `message` with alloca(length), retrieves the log into it,
prints the stage kind, prints `&message` (the address of the pointer, not the
log characters), deletes the shader and returns 0; otherwise it returns the
driver-issued id. -/
def CompileShader (d : Driver) (shaderType : Nat) (source : String) (s : GLState) :
    Nat × GLState :=
  let id := d.createShaderId shaderType
  let s1 := emit (GLAction.createShader shaderType id) s
  let s2 := emit (GLAction.shaderSource id) s1
  let s3 := emit (GLAction.compileShader id) s2
  let result : Int := if d.compileStatus id then GL_TRUE else GL_FALSE
  let s4 := emit (GLAction.getShaderCompileStatus id result) s3
  if result = GL_FALSE then
    let length := d.infoLogLength id
    let s5 := emit (GLAction.getShaderInfoLogLength id length) s4
    let s6 := emit (GLAction.getShaderInfoLog id length) s5
    let s7 := emitOut (OutItem.str ("Failed to compile "
      ++ (if shaderType = GL_VERTEX_SHADER then "vertex" else "fragment")
      ++ " shader!")) s6
    let s8 := emitOut OutItem.addrOfMessagePtr s7
    let s9 := emit (GLAction.deleteShader id) s8
    (0, s9)
  else
    (id, s4)

/-- Embeds `static unsigned int CreateShader(const std::string& vertexShader, const std::string& fragmentShader)`:
create a program, compile both stages, then (each wrapped in GLCall) attach
both, link, validate, delete both stage handles, and return the program. -/
def CreateShader (d : Driver) (vertexShader fragmentShader : String) (s : GLState) :
    Nat × GLState :=
  let program := d.createProgramId
  let s1 := emit (GLAction.createProgram program) s
  let rv := CompileShader d GL_VERTEX_SHADER vertexShader s1
  let vs := rv.1
  let rf := CompileShader d GL_FRAGMENT_SHADER fragmentShader rv.2
  let fsh := rf.1
  let s2 := GLCallS "glAttachShader(program, vs)" 124 (emit (GLAction.attachShader program vs)) rf.2
  let s3 := GLCallS "glAttachShader(program, fs)" 125 (emit (GLAction.attachShader program fsh)) s2
  let s4 := GLCallS "glLinkProgram(program)" 131 (emit (GLAction.linkProgram program)) s3
  let s5 := GLCallS "glValidateProgram(program)" 138 (emit (GLAction.validateProgram program)) s4
  let s6 := GLCallS "glDeleteShader(vs)" 140 (emit (GLAction.deleteShader vs)) s5
  let s7 := GLCallS "glDeleteShader(fs)" 141 (emit (GLAction.deleteShader fsh)) s6
  (program, s7)

/-- Embeds lines 238-242 of main: GLCall(glUseProgram(shader)); GLCall(int
location = glGetUniformLocation(shader, "u_Color")); ASSERT(location != -1);
GLCall(glUniform4f(0, 1.0f, 0.5f, 0.5f, 1.0f)).  Note the literal 0 passed as
the location argument of glUniform4f in the source. -/
def mainShaderSetup (d : Driver) (shader : Nat) (s : GLState) : Int × GLState :=
  let s1 := GLCallS "glUseProgram(shader)" 238 (emit (GLAction.useProgram shader)) s
  let s2 := GLClearErrorsS s1
  let location := d.uniformLocation shader "u_Color"
  let s3 := emit (GLAction.getUniformLocation shader "u_Color" location) s2
  let r := GLLogCallS "int location = glGetUniformLocation(shader, \"u_Color\")" 240 s3
  let s4 := if r.1 then r.2 else { r.2 with trapped := true }
  let s5 := if location = -1 then { s4 with trapped := true } else s4
  let s6 := GLCallS "glUniform4f(0, 1.0f, 0.5f, 0.5f, 1.0f)" 242
    (emit (GLAction.uniform4f 0)) s5
  (location, s6)

/-- Embeds line 254 of main, inside the render loop:
GLCall(glUniform4f(0, r, 0.5f, 0.5f, 1.0f)).  The location argument is again
the literal 0. -/
def renderLoopUniformCall (s : GLState) : GLState :=
  GLCallS "glUniform4f(0, r, 0.5f, 0.5f, 1.0f)" 254 (emit (GLAction.uniform4f 0)) s

/-- The value CompileShader returns, as a function of the driver oracle. -/
def compileResult (d : Driver) (shaderType : Nat) : Nat :=
  let id := d.createShaderId shaderType
  if d.compileStatus id then id else 0

/-- The driver calls CompileShader performs, as a function of the oracle. -/
def compileActions (d : Driver) (shaderType : Nat) : List GLAction :=
  let id := d.createShaderId shaderType
  if d.compileStatus id then
    [GLAction.createShader shaderType id, GLAction.shaderSource id,
     GLAction.compileShader id, GLAction.getShaderCompileStatus id GL_TRUE]
  else
    [GLAction.createShader shaderType id, GLAction.shaderSource id,
     GLAction.compileShader id, GLAction.getShaderCompileStatus id GL_FALSE,
     GLAction.getShaderInfoLogLength id (d.infoLogLength id),
     GLAction.getShaderInfoLog id (d.infoLogLength id),
     GLAction.deleteShader id]

/-- What CompileShader prints, as a function of the oracle. -/
def compileOut (d : Driver) (shaderType : Nat) : List OutItem :=
  if d.compileStatus (d.createShaderId shaderType) then []
  else
    [OutItem.str ("Failed to compile "
      ++ (if shaderType = GL_VERTEX_SHADER then "vertex" else "fragment")
      ++ " shader!"),
     OutItem.addrOfMessagePtr]

/-- The driver calls CreateShader performs, as a function of the oracle. -/
def createTrace (d : Driver) : List GLAction :=
  let program := d.createProgramId
  let vs := compileResult d GL_VERTEX_SHADER
  let fsh := compileResult d GL_FRAGMENT_SHADER
  [GLAction.createProgram program]
    ++ compileActions d GL_VERTEX_SHADER
    ++ compileActions d GL_FRAGMENT_SHADER
    ++ [GLAction.attachShader program vs, GLAction.attachShader program fsh,
        GLAction.linkProgram program, GLAction.validateProgram program,
        GLAction.deleteShader vs, GLAction.deleteShader fsh]

/-- How many times the handle `h` is deleted in a trace. -/
def countDel (h : Nat) : List GLAction → Nat
  | [] => 0
  | a :: rest => (if a = GLAction.deleteShader h then 1 else 0) + countDel h rest

/-- The initial state: empty error queue, no calls made, nothing printed. -/
def s0 : GLState := ⟨[], [], [], false⟩

/-- A driver on which both stages fail to compile, with a 12-character log. -/
def dFail : Driver :=
  { createShaderId := fun _ => 5
    createProgramId := 9
    compileStatus := fun _ => false
    infoLogLength := fun _ => 12
    infoLog := fun _ _ => "syntax error"
    uniformLocation := fun _ _ => 0 }

/-- A driver on which both stages compile, issuing handles 5 and 6. -/
def dPass : Driver :=
  { createShaderId := fun ty => if ty = GL_VERTEX_SHADER then 5 else 6
    createProgramId := 9
    compileStatus := fun _ => true
    infoLogLength := fun _ => 0
    infoLog := fun _ _ => ""
    uniformLocation := fun _ _ => 0 }

/-- A driver that resolves every uniform name to location 3. -/
def dLoc3 : Driver :=
  { dPass with uniformLocation := fun _ _ => 3 }

/-- A driver that resolves every uniform name to location -1 (not found). -/
def dLocNeg : Driver :=
  { dPass with uniformLocation := fun _ _ => -1 }

/-- An asset text whose first line precedes any section marker. -/
def preMarkerAsset : List (List Char) :=
  ["foo".data, "#shader vertex".data, "abc".data]

/-- An asset text consisting of a single non-marker line. -/
def strayAsset : List (List Char) := ["x".data]

/-- A well-formed vertex marker line. -/
def mVex : List Char := "#shader vertex".data

/-- A well-formed fragment marker line. -/
def mFrag : List Char := "#shader fragment".data

lemma CompileShader_eq (d : Driver) (ty : Nat) (source : String) (s : GLState) :
    CompileShader d ty source s =
      (compileResult d ty,
        { s with trace := s.trace ++ compileActions d ty,
                 out := s.out ++ compileOut d ty }) := by
  cases h : d.compileStatus (d.createShaderId ty) <;>
    simp [CompileShader, compileResult, compileActions, compileOut, emit, emitOut, h,
      GL_TRUE, GL_FALSE, List.append_assoc]

lemma GLCallS_trace (callText : String) (line : Nat) (a : GLAction) (s : GLState) :
    (GLCallS callText line (emit a) s).trace = s.trace ++ [a] := by
  simp [GLCallS, GLLogCallS, GLClearErrorsS, emit, apply_ite GLState.trace]

lemma CreateShader_eval (d : Driver) (v f : String) (s : GLState) :
    (CreateShader d v f s).1 = d.createProgramId ∧
    (CreateShader d v f s).2.trace = s.trace ++ createTrace d := by
  refine ⟨rfl, ?_⟩
  simp [CreateShader, createTrace, CompileShader_eq, GLCallS_trace, emit,
    List.append_assoc]

lemma countDel_append (h : Nat) (l1 l2 : List GLAction) :
    countDel h (l1 ++ l2) = countDel h l1 + countDel h l2 := by
  induction l1 with
  | nil => simp [countDel]
  | cons a rest ih => simp [countDel, ih, Nat.add_assoc]

lemma parseLoop_vertex_append (lines rest : List (List Char)) (b : Buffers)
    (h : ∀ l ∈ lines, hasSub shaderTok l = false) :
    parseLoop (lines ++ rest) ShaderType.VERTEX b =
      parseLoop rest ShaderType.VERTEX ⟨b.ss0 ++ joinNL lines, b.ss1⟩ := by
  induction lines generalizing b with
  | nil => simp [joinNL]
  | cons l ls ih =>
    have hl : hasSub shaderTok l = false := h l (List.mem_cons_self l ls)
    have hls : ∀ x ∈ ls, hasSub shaderTok x = false :=
      fun x hx => h x (List.mem_cons_of_mem l hx)
    simp [parseLoop, hl, writeBuf, ShaderType.toInt, joinNL]
    rw [ih _ hls]
    simp [List.append_assoc]

lemma parseLoop_fragment_append (lines rest : List (List Char)) (b : Buffers)
    (h : ∀ l ∈ lines, hasSub shaderTok l = false) :
    parseLoop (lines ++ rest) ShaderType.FRAGMENT b =
      parseLoop rest ShaderType.FRAGMENT ⟨b.ss0, b.ss1 ++ joinNL lines⟩ := by
  induction lines generalizing b with
  | nil => simp [joinNL]
  | cons l ls ih =>
    have hl : hasSub shaderTok l = false := h l (List.mem_cons_self l ls)
    have hls : ∀ x ∈ ls, hasSub shaderTok x = false :=
      fun x hx => h x (List.mem_cons_of_mem l hx)
    simp [parseLoop, hl, writeBuf, ShaderType.toInt, joinNL]
    rw [ih _ hls]
    simp [List.append_assoc]

/-- Claim C1: the spec says a line occurring before the first recognized
section marker (current stage still NONE) is silently dropped, appearing in
neither output buffer.  The code instead evaluates ss[(int)ShaderType::NONE],
i.e. ss[-1]: this theorem evaluates ParseShader at an asset whose first line
precedes any marker and shows the run aborts with an out-of-bounds access at
index -1 (the numeric value of NONE), instead of dropping the line. -/
theorem preMarker_line_out_of_bounds :
    ParseShader (fun _ => some preMarkerAsset) "res/shaders/Basic.shader" =
      ParseResult.oob (ShaderType.NONE.toInt) ∧
    (ShaderType.NONE.toInt < 0 ∨ 2 ≤ ShaderType.NONE.toInt) := by
  decide

/-- Claim C10: the claim says every buffer-array access of the splitter stays
within the bounds of the two-element array ss, including while the selector is
still NONE.  Evaluating ParseShader at an asset consisting of one non-marker
line shows the access uses index -1, which is outside [0, 2). -/
theorem buffer_index_out_of_bounds :
    ParseShader (fun _ => some strayAsset) "res/shaders/Other.shader" =
      ParseResult.oob (-1) ∧
    ¬ (0 ≤ (-1 : Int) ∧ (-1 : Int) < 2) := by
  decide

/-- Claim C7: the claim says an unopenable path is reported together with the
path and the splitter does not proceed to produce empty buffers.  Evaluating
ParseShader on a filesystem where the open fails shows the code silently
returns a bundle of two empty buffers and prints nothing. -/
theorem open_failure_silently_empty :
    ParseShader (fun _ => none) "res/shaders/Missing.shader" =
      ParseResult.ok ⟨[], []⟩ [] := by
  decide

/-- Claim C8: a line containing the marker token `#shader` followed by a stage
name that is neither `vertex` nor `fragment` leaves the current stage selector
unchanged, and the rest of the asset is processed from the unchanged state, so
subsequent non-marker lines keep accumulating in the previously selected
buffer. -/
theorem unrecognized_stage_name_keeps_state (line : List Char)
    (rest : List (List Char)) (t : ShaderType) (b : Buffers)
    (h1 : hasSub shaderTok line = true)
    (h2 : hasSub vertexTok line = false)
    (h3 : hasSub fragmentTok line = false) :
    parseLoop (line :: rest) t b = parseLoop rest t b := by
  simp [parseLoop, h1, h2, h3]

/-- Witness for claim C8 at the concrete marker line `#shader geometry`
processed while the vertex stage is selected. -/
theorem unrecognized_stage_name_keeps_state_witness :
    parseLoop ("#shader geometry".data :: ["abc".data]) ShaderType.VERTEX ⟨[], []⟩ =
      parseLoop ["abc".data] ShaderType.VERTEX ⟨[], []⟩ :=
  unrecognized_stage_name_keeps_state "#shader geometry".data ["abc".data]
    ShaderType.VERTEX ⟨[], []⟩ (by decide) (by decide) (by decide)

/-- Claim C3: for a valid two-section asset - a vertex marker line, the vertex
section lines, a fragment marker line and the fragment section lines, with the
two sections in either order and no stray marker token inside a section - the
vertex buffer is exactly the vertex section lines in order, each terminated by
a newline, and likewise the fragment buffer. -/
theorem two_section_split (path : String) (mV mF : List Char)
    (vlines flines : List (List Char))
    (hmV1 : hasSub shaderTok mV = true) (hmV2 : hasSub vertexTok mV = true)
    (hmF1 : hasSub shaderTok mF = true) (hmF2 : hasSub vertexTok mF = false)
    (hmF3 : hasSub fragmentTok mF = true)
    (hv : ∀ l ∈ vlines, hasSub shaderTok l = false)
    (hf : ∀ l ∈ flines, hasSub shaderTok l = false) :
    ParseShader (fun _ => some (mV :: (vlines ++ mF :: flines))) path =
      ParseResult.ok ⟨joinNL vlines, joinNL flines⟩ [] ∧
    ParseShader (fun _ => some (mF :: (flines ++ mV :: vlines))) path =
      ParseResult.ok ⟨joinNL vlines, joinNL flines⟩ [] := by
  have hfrag : parseLoop flines ShaderType.FRAGMENT ⟨joinNL vlines, []⟩ =
      SplitResult.ok ⟨joinNL vlines, joinNL flines⟩ := by
    have := parseLoop_fragment_append flines [] ⟨joinNL vlines, []⟩ hf
    simpa [parseLoop] using this
  have hvert : parseLoop vlines ShaderType.VERTEX ⟨[], joinNL flines⟩ =
      SplitResult.ok ⟨joinNL vlines, joinNL flines⟩ := by
    have := parseLoop_vertex_append vlines [] ⟨[], joinNL flines⟩ hv
    simpa [parseLoop] using this
  constructor
  · show ParseShader _ _ = _
    unfold ParseShader
    simp only [Option.getD_some]
    rw [show parseLoop (mV :: (vlines ++ mF :: flines)) ShaderType.NONE ⟨[], []⟩ =
        parseLoop (vlines ++ mF :: flines) ShaderType.VERTEX ⟨[], []⟩ by
      simp [parseLoop, hmV1, hmV2]]
    rw [parseLoop_vertex_append _ _ _ hv]
    rw [show parseLoop (mF :: flines) ShaderType.VERTEX ⟨[] ++ joinNL vlines, []⟩ =
        parseLoop flines ShaderType.FRAGMENT ⟨joinNL vlines, []⟩ by
      simp [parseLoop, hmF1, hmF2, hmF3]]
    rw [hfrag]
  · show ParseShader _ _ = _
    unfold ParseShader
    simp only [Option.getD_some]
    rw [show parseLoop (mF :: (flines ++ mV :: vlines)) ShaderType.NONE ⟨[], []⟩ =
        parseLoop (flines ++ mV :: vlines) ShaderType.FRAGMENT ⟨[], []⟩ by
      simp [parseLoop, hmF1, hmF2, hmF3]]
    rw [parseLoop_fragment_append _ _ _ hf]
    rw [show parseLoop (mV :: vlines) ShaderType.FRAGMENT ⟨[], [] ++ joinNL flines⟩ =
        parseLoop vlines ShaderType.VERTEX ⟨[], joinNL flines⟩ by
      simp [parseLoop, hmV1, hmV2]]
    rw [hvert]

/-- Witness for claim C3 at a concrete five-line asset: vertex marker, three
vertex lines, fragment marker, two fragment lines - and the same sections with
the fragment section first. -/
theorem two_section_split_witness :
    ParseShader (fun _ => some (mVex :: (["va".data, "vb".data, "vc".data]
        ++ mFrag :: ["fa".data, "fb".data]))) "res/shaders/Basic.shader" =
      ParseResult.ok ⟨joinNL ["va".data, "vb".data, "vc".data],
        joinNL ["fa".data, "fb".data]⟩ [] ∧
    ParseShader (fun _ => some (mFrag :: (["fa".data, "fb".data]
        ++ mVex :: ["va".data, "vb".data, "vc".data]))) "res/shaders/Basic.shader" =
      ParseResult.ok ⟨joinNL ["va".data, "vb".data, "vc".data],
        joinNL ["fa".data, "fb".data]⟩ [] :=
  two_section_split "res/shaders/Basic.shader" mVex mFrag
    ["va".data, "vb".data, "vc".data] ["fa".data, "fb".data]
    (by decide) (by decide) (by decide) (by decide) (by decide) (by decide) (by decide)

/-- Counterexample to claim C2: with two error codes 1280 and 1281 queued
after a wrapped call, GLLogCall does not report two errors and does not leave
the queue empty - the unconditional return inside the while loop stops after
the first popped code. -/
theorem gllogcall_single_report_counterexample :
    ¬ ((GLLogCall "glDrawElements(GL_TRIANGLES, 6, GL_UNSIGNED_INT, nullptr)"
          applicationFile 271 [1280, 1281]).1.length = 2 ∧
       (GLLogCall "glDrawElements(GL_TRIANGLES, 6, GL_UNSIGNED_INT, nullptr)"
          applicationFile 271 [1280, 1281]).2.2 = []) := by
  decide

/-- Claim C2 as amended: after the wrapped call, GLLogCall polls the error
queue at most once; if a non-zero code is queued it reports exactly that first
code (with the textual form of the call, the file and the line) and signals
failure immediately, leaving every remaining queued error unpolled and
unreported; on an empty queue it reports nothing and signals success. -/
theorem gllogcall_reports_first_error_only (callText file : String) (line e : Nat)
    (q : List Nat) (he : e ≠ 0) :
    GLLogCall callText file line (e :: q) = ([⟨e, callText, file, line⟩], false, q) ∧
    GLLogCall callText file line [] = ([], true, []) := by
  simp [GLLogCall, he]

/-- Witness for the amended claim C2 at the queue [1280, 1281]. -/
theorem gllogcall_reports_first_error_only_witness :
    GLLogCall "glAttachShader(program, vs)" applicationFile 124 [1280, 1281] =
      ([⟨1280, "glAttachShader(program, vs)", applicationFile, 124⟩], false, [1281]) ∧
    GLLogCall "glAttachShader(program, vs)" applicationFile 124 [] = ([], true, []) :=
  gllogcall_reports_first_error_only "glAttachShader(program, vs)" applicationFile
    124 1280 [1281] (by decide)

/-- Claim C4: evaluation at a driver on which compilation fails with log
length 12 and log text `syntax error`.  The code queries the log length,
passes exactly that length as the buffer size to glGetShaderInfoLog, reports
the stage kind, deletes the stage and returns 0, and on success returns the
driver-issued handle - but the second printed item is the address of the
scratch-buffer pointer (std::cout << &message), and the retrieved log text
appears nowhere in the output. -/
theorem compile_failure_reporting :
    (CompileShader dFail GL_VERTEX_SHADER "bad" s0).1 = 0 ∧
    (CompileShader dFail GL_VERTEX_SHADER "bad" s0).2.trace =
      [GLAction.createShader GL_VERTEX_SHADER 5, GLAction.shaderSource 5,
       GLAction.compileShader 5, GLAction.getShaderCompileStatus 5 GL_FALSE,
       GLAction.getShaderInfoLogLength 5 12, GLAction.getShaderInfoLog 5 12,
       GLAction.deleteShader 5] ∧
    (CompileShader dFail GL_VERTEX_SHADER "bad" s0).2.out =
      [OutItem.str "Failed to compile vertex shader!", OutItem.addrOfMessagePtr] ∧
    (∀ o ∈ (CompileShader dFail GL_VERTEX_SHADER "bad" s0).2.out,
      o ≠ OutItem.str "syntax error") ∧
    (CompileShader dPass GL_FRAGMENT_SHADER "good" s0).1 = 6 := by
  decide

/-- Claim C5: for every driver oracle and start state, CreateShader performs
exactly these driver calls in this order - create the program object, the
compile sequence for the vertex stage, the compile sequence for the fragment
stage, attach the vertex handle, attach the fragment handle, link, validate,
delete the vertex handle, delete the fragment handle - and returns the
program handle. -/
theorem createShader_step_order (d : Driver) (v f : String) (s : GLState) :
    (CreateShader d v f s).1 = d.createProgramId ∧
    (CreateShader d v f s).2.trace =
      s.trace ++ [GLAction.createProgram d.createProgramId]
        ++ compileActions d GL_VERTEX_SHADER
        ++ compileActions d GL_FRAGMENT_SHADER
        ++ [GLAction.attachShader d.createProgramId (compileResult d GL_VERTEX_SHADER),
            GLAction.attachShader d.createProgramId (compileResult d GL_FRAGMENT_SHADER),
            GLAction.linkProgram d.createProgramId,
            GLAction.validateProgram d.createProgramId,
            GLAction.deleteShader (compileResult d GL_VERTEX_SHADER),
            GLAction.deleteShader (compileResult d GL_FRAGMENT_SHADER)] := by
  refine ⟨(CreateShader_eval d v f s).1, ?_⟩
  rw [(CreateShader_eval d v f s).2]
  simp [createTrace, List.append_assoc]

/-- Claim C6: evaluation of the uniform-setup fragment of main.  With a driver
resolving u_Color to location 3, the resolved value is 3 and no ASSERT fires,
yet every glUniform4f call in the trace passes the literal location 0 and none
passes the resolved location 3 - including the per-frame call of the render
loop; with a driver resolving to -1 the ASSERT fires (fatal), as the claim
states. -/
theorem uniform_location_ignored :
    (mainShaderSetup dLoc3 9 s0).1 = 3 ∧
    GLAction.uniform4f 0 ∈ (mainShaderSetup dLoc3 9 s0).2.trace ∧
    (∀ a ∈ (mainShaderSetup dLoc3 9 s0).2.trace, a ≠ GLAction.uniform4f 3) ∧
    (mainShaderSetup dLoc3 9 s0).2.trapped = false ∧
    (mainShaderSetup dLocNeg 9 s0).2.trapped = true ∧
    (renderLoopUniformCall s0).trace = [GLAction.uniform4f 0] := by
  decide

/-- Claim C9: for every driver issuing non-zero, distinct stage handles, each
of the two stage handles created during CreateShader is deleted exactly once
in the complete trace - on the failure path inside CompileShader, or else in
the cleanup step after link/validate - so no stage handle is deleted twice
and none survives past program linking. -/
theorem stage_handles_deleted_exactly_once (d : Driver) (v f : String) (s : GLState)
    (hs : s.trace = [])
    (hv0 : d.createShaderId GL_VERTEX_SHADER ≠ 0)
    (hf0 : d.createShaderId GL_FRAGMENT_SHADER ≠ 0)
    (hvf : d.createShaderId GL_VERTEX_SHADER ≠ d.createShaderId GL_FRAGMENT_SHADER) :
    countDel (d.createShaderId GL_VERTEX_SHADER) ((CreateShader d v f s).2.trace) = 1 ∧
    countDel (d.createShaderId GL_FRAGMENT_SHADER) ((CreateShader d v f s).2.trace) = 1 := by
  have hv0s : (0 : Nat) ≠ d.createShaderId GL_VERTEX_SHADER := Ne.symm hv0
  have hf0s : (0 : Nat) ≠ d.createShaderId GL_FRAGMENT_SHADER := Ne.symm hf0
  have hvfs : d.createShaderId GL_FRAGMENT_SHADER ≠ d.createShaderId GL_VERTEX_SHADER :=
    Ne.symm hvf
  rw [(CreateShader_eval d v f s).2, hs]
  cases hsv : d.compileStatus (d.createShaderId GL_VERTEX_SHADER) <;>
    cases hsf : d.compileStatus (d.createShaderId GL_FRAGMENT_SHADER) <;>
      simp [createTrace, compileActions, compileResult, hsv, hsf, countDel,
        countDel_append, hv0, hf0, hvf, hv0s, hf0s, hvfs]

/-- Witness for claim C9 at the driver dPass (handles 5 and 6, both compiles
succeeding) from the initial state. -/
theorem stage_handles_deleted_exactly_once_witness :
    countDel (dPass.createShaderId GL_VERTEX_SHADER)
      ((CreateShader dPass "vsrc" "fsrc" s0).2.trace) = 1 ∧
    countDel (dPass.createShaderId GL_FRAGMENT_SHADER)
      ((CreateShader dPass "vsrc" "fsrc" s0).2.trace) = 1 :=
  stage_handles_deleted_exactly_once dPass "vsrc" "fsrc" s0 rfl
    (by decide) (by decide) (by decide)
